import Mathlib

/-!
Shallow embedding of the Nexto repository's core logic:
the freshness-gated industry-insight fetcher, the resilient structured
generator (retry, cleanup, enum normalization, fallbacks) and the
quiz/cover-letter actions.  External collaborators (Clerk auth, the
Prisma store, the Gemini text-generation service, JSON.parse) are
modelled as explicit parameters: the auth result is an `Option String`
caller id, store lookups are oracle values, the generator is a function
from prompt/attempt to an `Except` outcome, and JSON parsing is a
function into `Option` of a typed document.  Timestamps are `Nat`
milliseconds.  Every modelled operation additionally returns an
`Effects` record counting store reads, store writes and underlying
generator calls, so that frame claims ("no write", "no generator call")
are statable.
-/

/-- A thrown JavaScript error value: its optional `status` field (the
Gemini client sets 404 / 429) and its `message`. -/
structure JsError where
  status : Option Nat
  message : String
deriving DecidableEq, Repr

/-- `throw new Error("Unauthorized")`. -/
def unauthorizedError : JsError := ⟨none, "Unauthorized"⟩

/-- `throw new Error("User not found")`. -/
def userNotFoundError : JsError := ⟨none, "User not found"⟩

/-- The TypeError raised by evaluating `new Date.now()` (as in the
`update` branch of the upsert in `getIndustryInsights`): `Date.now` is
a plain function, not a constructor. -/
def dateNowTypeError : JsError := ⟨none, "Date.now is not a constructor"⟩

/-- Effect counters instrumenting each modelled operation. -/
structure Effects where
  dbReads : Nat := 0
  dbWrites : Nat := 0
  genCalls : Nat := 0
deriving DecidableEq, Repr

/-- One salary-range entry of the generated payload. -/
structure SalaryRange where
  role : String
  min : Int
  max : Int
  median : Int
  location : String
deriving DecidableEq, Repr

/-- The persisted `industryInsight` record (Prisma model).  `industry`
is the unique key; timestamps are milliseconds. -/
structure InsightRecord where
  industry : String
  salaryRanges : List SalaryRange
  growthRate : Int
  demandLevel : String
  topSkills : List String
  marketOutlook : String
  keyTrends : List String
  recommendedSkills : List String
  lastUpdated : Nat
  nextUpdate : Nat
deriving DecidableEq, Repr

/-- The untrusted document obtained from `JSON.parse` of the cleaned
generator text, before any normalization: every field may be absent. -/
structure RawInsights where
  salaryRanges : Option (List SalaryRange) := none
  growthRate : Option Int := none
  demandLevel : Option String := none
  topSkills : Option (List String) := none
  marketOutlook : Option String := none
  keyTrends : Option (List String) := none
  recommendedSkills : Option (List String) := none
deriving DecidableEq, Repr

/-- The document after the two enum fields were mapped (the other
fields are passed through unchanged). -/
structure MappedInsights where
  salaryRanges : Option (List SalaryRange)
  growthRate : Option Int
  demandLevel : String
  topSkills : Option (List String)
  marketOutlook : String
  keyTrends : Option (List String)
  recommendedSkills : Option (List String)
deriving DecidableEq, Repr

/-- A user row as far as the modelled actions read it. -/
structure User where
  id : String
  industry : String
  skills : List String
  industryInsight : Option InsightRecord := none
deriving DecidableEq, Repr

/-! ## Text cleanup (the code-fence stripping regexes) -/

/-- The backtick character. -/
def backtickChar : Char := Char.ofNat 96

/-- If `lit` is an initial segment of `s`, return the remainder. -/
def matchLit : List Char → List Char → Option (List Char)
  | [], s => some s
  | _ :: _, [] => none
  | l :: ls, c :: cs => if c = l then matchLit ls cs else none

/-- The characters of a triple code fence. -/
def fenceLit : List Char := [backtickChar, backtickChar, backtickChar]

/-- The characters of the word `json`. -/
def jsonLit : List Char := ['j', 's', 'o', 'n']

/-- One match attempt of the batch job's pattern (a fence, optionally
followed by `json`, optionally followed by a newline) at the head of
`s`; returns the remainder after the match. -/
def stripFenceBatch (s : List Char) : Option (List Char) :=
  match matchLit fenceLit s with
  | none => none
  | some r1 =>
    let r2 := match matchLit jsonLit r1 with
      | some r => r
      | none => r1
    match matchLit ['\n'] r2 with
    | some r => some r
    | none => some r2

/-- One match attempt of the interactive path's pattern (a fence
followed by `json`, or a bare fence) at the head of `s`. -/
def stripFenceAI (s : List Char) : Option (List Char) :=
  match matchLit (fenceLit ++ jsonLit) s with
  | some r => some r
  | none => matchLit fenceLit s

/-- Global replacement of the fence pattern by the empty string: scan
left to right, deleting each leftmost match.  `fuel` bounds the
recursion (the initial length of the text suffices, since every step
consumes at least one character). -/
def replaceFencesAux (strip : List Char → Option (List Char)) : Nat → List Char → List Char
  | 0, s => s
  | _ + 1, [] => []
  | fuel + 1, c :: cs =>
    match strip (c :: cs) with
    | some rest => replaceFencesAux strip fuel rest
    | none => c :: replaceFencesAux strip fuel cs

/-- JavaScript `String.prototype.trim` on the ASCII whitespace the
texts at hand contain. -/
def isJsSpace (c : Char) : Bool := c = ' ' ∨ c = '\t' ∨ c = '\n' ∨ c = '\r'

/-- Strip leading and trailing whitespace. -/
def jsTrim (s : String) : String :=
  String.mk (((s.data.dropWhile isJsSpace).reverse.dropWhile isJsSpace).reverse)

/-- The batch job's cleanup: `text.replace(regex, "").trim()` with the
pattern "fence, optional json, optional newline". -/
def cleanBatchText (text : String) : String :=
  jsTrim (String.mk (replaceFencesAux stripFenceBatch text.data.length text.data))

/-- The interactive path's cleanup: `text.replace(regex, "").trim()`
with the pattern "fence-json or fence". -/
def cleanAIText (text : String) : String :=
  jsTrim (String.mk (replaceFencesAux stripFenceAI text.data.length text.data))

/-! ## Enum normalization -/

/-- `String.prototype.toUpperCase` on one ASCII character. -/
def jsUpperChar (c : Char) : Char :=
  if 'a' ≤ c ∧ c ≤ 'z' then Char.ofNat (c.toNat - 32) else c

/-- `String.prototype.toUpperCase` (the enum values at hand are ASCII). -/
def jsUpperCase (s : String) : String := String.mk (s.data.map jsUpperChar)

/-- The batch job's `normalizeEnum`: optional-chained uppercase, then
membership test in the allowed set, else the fallback. -/
def normalizeEnum (value : Option String) (allowed : List String) (fallback : String) : String :=
  match value.map jsUpperCase with
  | some v => if allowed.contains v then v else fallback
  | none => fallback

/-- The interactive path's `demandLevelMap` object: only the exact
Titlecase spellings are keys. -/
def demandLevelMap : String → Option String :=
  fun v =>
    if v = "High" then some "HIGH"
    else if v = "Medium" then some "MEDIUM"
    else if v = "Low" then some "LOW"
    else none

/-- The interactive path's `marketOutlookMap` object. -/
def marketOutlookMap : String → Option String :=
  fun v =>
    if v = "Positive" then some "POSITIVE"
    else if v = "Neutral" then some "NEUTRAL"
    else if v = "Negative" then some "NEGATIVE"
    else none

/-- `demandLevelMap[parsed.demandLevel] || "MEDIUM"` (the map's values
are non-empty strings, so truthiness is just presence). -/
def mapDemandLevel (v : Option String) : String :=
  (v.bind demandLevelMap).getD "MEDIUM"

/-- `marketOutlookMap[parsed.marketOutlook] || "NEUTRAL"`. -/
def mapMarketOutlook (v : Option String) : String :=
  (v.bind marketOutlookMap).getD "NEUTRAL"

/-! ## safeGenerate (interview.js): retry on 429, immediate error on 404 -/

/-- The error thrown on a 404 from the model client:
`"Model name is outdated. Try 'gemini-2.5-flash-lite'."`. -/
def modelOutdatedError : JsError :=
  ⟨none, "Model name is outdated. Try 'gemini-2.5-flash-lite'."⟩

instance {ε α : Type} [DecidableEq ε] [DecidableEq α] : DecidableEq (Except ε α) := fun x y =>
  match x, y with
  | .ok a, .ok b => if h : a = b then .isTrue (by rw [h]) else .isFalse (by simp [h])
  | .error a, .error b => if h : a = b then .isTrue (by rw [h]) else .isFalse (by simp [h])
  | .ok _, .error _ => .isFalse (by simp)
  | .error _, .ok _ => .isFalse (by simp)

/-- The outcome of a `safeGenerate` run: the returned text or the
thrown error, plus instrumentation — the total backoff slept (ms) and
the number of underlying `model.generateContent` calls made. -/
structure SafeOut where
  result : Except JsError String
  waitMs : Nat
  attempts : Nat
deriving DecidableEq, Repr

/-- `safeGenerate(prompt, retries)`: try the model call; on a 404 throw
the model-outdated error; on a 429 with retries left, sleep 30 s and
recurse with `retries - 1`; otherwise rethrow.  `call n` is the outcome
of the `n`-th underlying call for this prompt; `attempt` indexes it. -/
def safeGenerate (call : Nat → Except JsError String) (attempt : Nat) (retries : Nat) : SafeOut :=
  match call attempt with
  | .ok r => ⟨.ok r, 0, 1⟩
  | .error err =>
    if err.status = some 404 then ⟨.error modelOutdatedError, 0, 1⟩
    else
      match retries with
      | left + 1 =>
        if err.status = some 429 then
          let out := safeGenerate call (attempt + 1) left
          ⟨out.result, 30000 + out.waitMs, 1 + out.attempts⟩
        else ⟨.error err, 0, 1⟩
      | 0 => ⟨.error err, 0, 1⟩

/-! ## generateAIInsights and getIndustryInsights (interactive path) -/

/-- The platform JSON parser's message on unparsable input, abstracted
(the claims never inspect it). -/
def jsonSyntaxErrorMessage : String := "Unexpected token"

/-- `generateAIInsights(industry)`: one direct model call (no retry),
trim, strip code fences, parse, map the two enum fields through the
Titlecase maps with `|| default`; any error inside the try is rethrown
as `"Failed to generate AI insights: " + message`.  `call` is the model
response text for the prompt built from `industry`; `parseJson` models
`JSON.parse` on the cleaned text. -/
def generateAIInsights (call : String → Except JsError String)
    (parseJson : String → Option RawInsights) (industry : String) :
    Except JsError MappedInsights × Effects :=
  match call industry with
  | .error e =>
    (.error ⟨none, "Failed to generate AI insights: " ++ e.message⟩, { genCalls := 1 })
  | .ok raw =>
    let text := cleanAIText (jsTrim raw)
    match parseJson text with
    | none =>
      (.error ⟨none, "Failed to generate AI insights: " ++ jsonSyntaxErrorMessage⟩,
        { genCalls := 1 })
    | some parsed =>
      (.ok
        { salaryRanges := parsed.salaryRanges
          growthRate := parsed.growthRate
          demandLevel := mapDemandLevel parsed.demandLevel
          topSkills := parsed.topSkills
          marketOutlook := mapMarketOutlook parsed.marketOutlook
          keyTrends := parsed.keyTrends
          recommendedSkills := parsed.recommendedSkills }, { genCalls := 1 })

/-- The refresh path of `getIndustryInsights`, taken when the record is
absent or stale: call `generateAIInsights`, then evaluate the argument
object of `db.industryInsight.upsert`.  That object's `update` branch
contains `lastUpdate: new Date.now()`; `Date.now` is not a constructor,
so building the argument throws a TypeError before the upsert executes
— no record is ever written on this path. -/
def getIndustryInsightsRefresh (call : String → Except JsError String)
    (parseJson : String → Option RawInsights) (user : User) :
    Except JsError InsightRecord × Effects :=
  match generateAIInsights call parseJson user.industry with
  | (.error e, eff) => (.error e, { dbReads := 1, genCalls := eff.genCalls })
  | (.ok _insights, eff) => (.error dateNowTypeError, { dbReads := 1, genCalls := eff.genCalls })

/-- `getIndustryInsights()`: require a caller id, load the user with
its `industryInsight`, and serve the cached record unless it is absent
or `now >= nextUpdate`, in which case take the refresh path. -/
def getIndustryInsights (now : Nat) (authUserId : Option String) (findUser : Option User)
    (call : String → Except JsError String) (parseJson : String → Option RawInsights) :
    Except JsError InsightRecord × Effects :=
  match authUserId with
  | none => (.error unauthorizedError, {})
  | some _ =>
    match findUser with
    | none => (.error userNotFoundError, { dbReads := 1 })
    | some user =>
      match user.industryInsight with
      | none => getIndustryInsightsRefresh call parseJson user
      | some record =>
        if record.nextUpdate ≤ now then getIndustryInsightsRefresh call parseJson user
        else (.ok record, { dbReads := 1 })

/-! ## The weekly batch job (generateIndustryInsights) -/

/-- The generation response of one batch step:
`res.response?.candidates?.[0]?.content?.parts?.[0]?.text`, which may
be absent (the code substitutes `""`). -/
structure GenResponse where
  textOpt : Option String
deriving DecidableEq, Repr

/-- `applyInsightsUpdate now ins r` is the `db.industryInsight.update`
of the batch job: list fields defaulted with `|| []`, growth rate with
`|| 0`, the two enums through `normalizeEnum`, timestamps advanced to
`now` and `now + 7 days`. -/
def applyInsightsUpdate (now : Nat) (ins : RawInsights) (r : InsightRecord) : InsightRecord :=
  { r with
    salaryRanges := ins.salaryRanges.getD []
    growthRate := ins.growthRate.getD 0
    demandLevel := normalizeEnum ins.demandLevel ["HIGH", "MEDIUM", "LOW"] "MEDIUM"
    topSkills := ins.topSkills.getD []
    marketOutlook := normalizeEnum ins.marketOutlook ["POSITIVE", "NEUTRAL", "NEGATIVE"] "NEUTRAL"
    keyTrends := ins.keyTrends.getD []
    recommendedSkills := ins.recommendedSkills.getD []
    lastUpdated := now
    nextUpdate := now + 7 * 24 * 60 * 60 * 1000 }

/-- The batch job's per-industry loop: generate (a failed generation
step aborts the inngest run), extract the text (`|| ""`), clean it,
parse it — on parse failure `continue` to the next industry — then
update the record with that industry. -/
def insightsBatchLoop (now : Nat) (gen : String → Except JsError GenResponse)
    (parseJson : String → Option RawInsights) :
    List String → List InsightRecord → Except JsError (List InsightRecord)
  | [], store => .ok store
  | industry :: rest, store =>
    match gen industry with
    | .error e => .error e
    | .ok res =>
      let text := res.textOpt.getD ""
      let cleanedText := cleanBatchText text
      match parseJson cleanedText with
      | none => insightsBatchLoop now gen parseJson rest store
      | some insights =>
        insightsBatchLoop now gen parseJson rest
          (store.map fun r =>
            if r.industry = industry then applyInsightsUpdate now insights r else r)

/-- `generateIndustryInsights` (the weekly inngest function): fetch the
industries of all stored records, then run the loop over them. -/
def generateIndustryInsightsBatch (now : Nat) (gen : String → Except JsError GenResponse)
    (parseJson : String → Option RawInsights) (store : List InsightRecord) :
    Except JsError (List InsightRecord) :=
  insightsBatchLoop now gen parseJson (store.map InsightRecord.industry) store

/-! ## Interview quiz actions (interview.js) -/

/-- One quiz question as generated and as submitted back. -/
structure Question where
  question : String
  options : List String
  correctAnswer : String
  explanation : String
deriving DecidableEq, Repr

/-- The parsed quiz document: `JSON.parse(...)`, whose `questions`
field may be absent. -/
structure QuizDoc where
  questions : Option (List Question)
deriving DecidableEq, Repr

/-- The hard-coded placeholder question returned when quiz generation
fails completely. -/
def fallbackQuestion : Question :=
  { question := "Fallback question..."
    options := ["A", "B", "C", "D"]
    correctAnswer := "A"
    explanation := "Error fallback" }

/-- `generateQuiz()`: require a caller id, load the user, run
`safeGenerate` with the default budget of 3 retries, parse the
response; any error from generation or parsing is caught and replaced
by the one-element fallback question list. -/
def generateQuiz (authUserId : Option String) (findUser : Option User)
    (call : Nat → Except JsError String) (parseJson : String → Option QuizDoc) :
    Except JsError (Option (List Question)) × Effects :=
  match authUserId with
  | none => (.error unauthorizedError, {})
  | some _ =>
    match findUser with
    | none => (.error userNotFoundError, { dbReads := 1 })
    | some _user =>
      let out := safeGenerate call 0 3
      match out.result with
      | .error _ => (.ok (some [fallbackQuestion]), { dbReads := 1, genCalls := out.attempts })
      | .ok text =>
        match parseJson text with
        | none => (.ok (some [fallbackQuestion]), { dbReads := 1, genCalls := out.attempts })
        | some quiz => (.ok quiz.questions, { dbReads := 1, genCalls := out.attempts })

/-- One entry of the `questionResults` array built by
`saveQuizResult`. -/
structure QuestionResult where
  question : String
  answer : String
  userAnswer : Option String
  isCorrect : Bool
  explanation : String
deriving DecidableEq, Repr

/-- `questions.map((q, index) => ...)`: pair each question with the
answer at its index (`answers[index]` is `undefined` past the end, and
`correctAnswer === undefined` is false). -/
def questionResultsFrom (answers : List String) : Nat → List Question → List QuestionResult
  | _, [] => []
  | index, q :: qs =>
    { question := q.question
      answer := q.correctAnswer
      userAnswer := answers.get? index
      isCorrect := answers.get? index == some q.correctAnswer
      explanation := q.explanation } :: questionResultsFrom answers (index + 1) qs

/-- The parsed improvement-tip document, whose `tip` field may be
absent. -/
structure TipDoc where
  tip : Option String
deriving DecidableEq, Repr

/-- The tip substituted when generating the improvement tip fails. -/
def improvementTipFallback : String :=
  "Keep practicing your technical skills to build confidence!"

/-- The persisted assessment row. -/
structure Assessment where
  userId : String
  quizScore : Int
  questions : List QuestionResult
  category : String
  improvementTip : Option String
deriving DecidableEq, Repr

/-- `saveQuizResult(questions, answers, score)`: require a caller id,
load the user, build `questionResults`, and only when some answer is
wrong call the generator for an improvement tip (falling back to the
hard-coded tip on any error); then create the assessment row. -/
def saveQuizResult (authUserId : Option String) (findUser : Option User)
    (call : Nat → Except JsError String) (parseJson : String → Option TipDoc)
    (questions : List Question) (answers : List String) (score : Int) :
    Except JsError Assessment × Effects :=
  match authUserId with
  | none => (.error unauthorizedError, {})
  | some _ =>
    match findUser with
    | none => (.error userNotFoundError, { dbReads := 1 })
    | some user =>
      let questionResults := questionResultsFrom answers 0 questions
      let wrongAnswers := questionResults.filter fun q => !q.isCorrect
      let tipState : Option String × Nat :=
        if wrongAnswers.length > 0 then
          let out := safeGenerate call 0 3
          match out.result with
          | .error _ => (some improvementTipFallback, out.attempts)
          | .ok text =>
            match parseJson text with
            | none => (some improvementTipFallback, out.attempts)
            | some doc => (doc.tip, out.attempts)
        else (none, 0)
      (.ok
        { userId := user.id
          quizScore := score
          questions := questionResults
          category := "Technical"
          improvementTip := tipState.fst },
        { dbReads := 1, dbWrites := 1, genCalls := tipState.snd })

/-! ## Cover-letter generation (cover-letter.js) -/

/-- The request payload of `generateCoverLetter`. -/
structure CoverLetterInput where
  jobTitle : String
  companyName : String
  jobDescription : String
deriving DecidableEq, Repr

/-- The opportunistically parsed generator response: either of the two
key spellings may be present. -/
structure CoverLetterDoc where
  coverLetter : Option String := none
  cover_letter : Option String := none
deriving DecidableEq, Repr

/-- JavaScript `a || b` on two possibly-absent strings: a present but
empty string is falsy. -/
def jsOrString (a b : Option String) : Option String :=
  match a with
  | some s => if s = "" then b else some s
  | none => b

/-- The error rethrown by `generateCoverLetter`'s outer catch. -/
def coverLetterFailedError : JsError := ⟨none, "Failed to generate cover letter"⟩

/-- The persisted cover-letter row. -/
structure CoverLetter where
  content : Option String
  jobDescription : String
  companyName : String
  jobTitle : String
  status : String
  userId : String
deriving DecidableEq, Repr

/-- `generateCoverLetter(data)`: require a caller id, load the user,
make one direct model call; try to `JSON.parse` the response and take
`coverLetter || cover_letter`, and if parsing fails use the raw text;
persist and return the row.  A generation error is rethrown as
`"Failed to generate cover letter"`. -/
def generateCoverLetter (authUserId : Option String) (findUser : Option User)
    (call : Except JsError String) (parseJson : String → Option CoverLetterDoc)
    (data : CoverLetterInput) : Except JsError CoverLetter × Effects :=
  match authUserId with
  | none => (.error unauthorizedError, {})
  | some _ =>
    match findUser with
    | none => (.error userNotFoundError, { dbReads := 1 })
    | some user =>
      match call with
      | .error _ => (.error coverLetterFailedError, { dbReads := 1, genCalls := 1 })
      | .ok responseText =>
        let contentString : Option String :=
          match parseJson responseText with
          | some parsedData => jsOrString parsedData.coverLetter parsedData.cover_letter
          | none => some responseText
        (.ok
          { content := contentString
            jobDescription := data.jobDescription
            companyName := data.companyName
            jobTitle := data.jobTitle
            status := "completed"
            userId := user.id },
          { dbReads := 1, dbWrites := 1, genCalls := 1 })

/-! ## Onboarding status (user actions) -/

/-- The value returned by `getUserOnboardingStatus` (the catch branch
adds an `error` field). -/
structure OnboardingStatus where
  isOnboarded : Bool
  error : Option String := none
deriving DecidableEq, Repr

/-- `getUserOnboardingStatus()`: with no caller id, return
`{ isOnboarded: false }` without touching the store; otherwise read
the user's `industry` (`!!user?.industry`, so a missing user, a null
industry or an empty string count as not onboarded); a store error is
caught and turned into a safe value. -/
def getUserOnboardingStatus (authUserId : Option String)
    (findUser : Except JsError (Option (Option String))) :
    Except JsError OnboardingStatus × Effects :=
  match authUserId with
  | none => (.ok { isOnboarded := false }, {})
  | some _ =>
    match findUser with
    | .error _ =>
      (.ok { isOnboarded := false, error := some "Database connection failed" }, { dbReads := 1 })
    | .ok user =>
      (.ok
        { isOnboarded :=
            match user with
            | some (some industry) => industry ≠ ""
            | _ => false }, { dbReads := 1 })

/-! ## Concrete fixtures used by witnesses -/

/-- A stored insight record for the `tech` industry expiring at 1000. -/
def sampleRecord : InsightRecord :=
  { industry := "tech"
    salaryRanges := []
    growthRate := 12
    demandLevel := "HIGH"
    topSkills := ["sql"]
    marketOutlook := "POSITIVE"
    keyTrends := []
    recommendedSkills := []
    lastUpdated := 0
    nextUpdate := 1000 }

/-- A user with no cached insight record. -/
def sampleUserNoInsight : User := { id := "u1", industry := "tech", skills := ["sql"] }

/-- A user holding `sampleRecord` (fresh before 1000, stale after). -/
def sampleUserWithInsight : User :=
  { id := "u1", industry := "tech", skills := ["sql"], industryInsight := some sampleRecord }

/-- A generator whose first two calls are rate-limited and whose third
succeeds. -/
def callTwo429 : Nat → Except JsError String :=
  fun i => if i < 2 then .error ⟨some 429, "quota"⟩ else .ok "generated"

/-- A generator that is rate-limited on every call. -/
def callAll429 : Nat → Except JsError String := fun _ => .error ⟨some 429, "quota"⟩

/-- The error function naming each attempt's rate-limit error. -/
def errsAll429 : Nat → JsError := fun _ => ⟨some 429, "quota"⟩

/-- A generator failing with an unknown-model 404 on every call. -/
def call404 : Nat → Except JsError String := fun _ => .error ⟨some 404, "model not found"⟩

/-- A generator failing with a plain server error on every call. -/
def call500 : Nat → Except JsError String := fun _ => .error ⟨some 500, "boom"⟩

/-- Three stored records for the batch-scenario witness. -/
def recAlpha : InsightRecord :=
  { industry := "alpha", salaryRanges := [], growthRate := 0, demandLevel := "MEDIUM"
    topSkills := [], marketOutlook := "NEUTRAL", keyTrends := [], recommendedSkills := []
    lastUpdated := 0, nextUpdate := 0 }

/-- Second record of the batch-scenario witness. -/
def recBeta : InsightRecord := { recAlpha with industry := "beta" }

/-- Third record of the batch-scenario witness. -/
def recGamma : InsightRecord := { recAlpha with industry := "gamma" }

/-- Batch-scenario witness generator: a distinct text per industry. -/
def genBatchWitness : String → Except JsError GenResponse :=
  fun industry =>
    if industry = "alpha" then .ok ⟨some "t1"⟩
    else if industry = "beta" then .ok ⟨some "t2"⟩
    else .ok ⟨some "t3"⟩

/-- Parsed document for the first batch-witness subject. -/
def rawAlpha : RawInsights := { demandLevel := some "High" }

/-- Parsed document for the third batch-witness subject. -/
def rawGamma : RawInsights := { growthRate := some 7 }

/-- Batch-scenario witness parser: subjects 1 and 3 parse, subject 2
does not. -/
def parseBatchWitness : String → Option RawInsights :=
  fun s => if s = "t1" then some rawAlpha else if s = "t3" then some rawGamma else none

/-- A one-question quiz for the saved-result witness. -/
def sampleQuestion : Question :=
  { question := "Q1", options := ["A", "B", "C", "D"], correctAnswer := "A"
    explanation := "E1" }

/-! # Theorems -/

@[simp]
lemma applyInsightsUpdate_industry (now : Nat) (ins : RawInsights) (r : InsightRecord) :
    (applyInsightsUpdate now ins r).industry = r.industry := rfl

/-- Claim C1 (code bug): on both the first-call create branch and the
stale-refresh branch, `getIndustryInsights` does not upsert a record
with advanced timestamps; after invoking the generator it throws the
TypeError from evaluating `new Date.now()` in the upsert's `update`
argument, performing zero writes. -/
theorem getIndustryInsights_upsert_throws_typeerror :
    getIndustryInsights 0 (some "user-1") (some sampleUserNoInsight)
        (fun _ => .ok "raw") (fun _ => some {})
      = (.error dateNowTypeError, { dbReads := 1, genCalls := 1 })
    ∧ getIndustryInsights 5000 (some "user-1") (some sampleUserWithInsight)
        (fun _ => .ok "raw") (fun _ => some {})
      = (.error dateNowTypeError, { dbReads := 1, genCalls := 1 }) :=
  ⟨rfl, rfl⟩

/-- Claim C2 (code bug): the interactive maps miss every case-varied
valid value — including the exact uppercase spellings the prompt in the
same file requests — and substitute the default, while the batch
`normalizeEnum` uppercases and accepts them; invalid and absent values
do default on both paths. -/
theorem enum_interactive_map_misses_case_variants :
    mapDemandLevel (some "HIGH") = "MEDIUM"
    ∧ mapDemandLevel (some "high") = "MEDIUM"
    ∧ mapDemandLevel (some "High") = "HIGH"
    ∧ mapMarketOutlook (some "POSITIVE") = "NEUTRAL"
    ∧ normalizeEnum (some "high") ["HIGH", "MEDIUM", "LOW"] "MEDIUM" = "HIGH"
    ∧ normalizeEnum (some "HIGH") ["HIGH", "MEDIUM", "LOW"] "MEDIUM" = "HIGH"
    ∧ normalizeEnum (some "wild") ["HIGH", "MEDIUM", "LOW"] "MEDIUM" = "MEDIUM"
    ∧ normalizeEnum none ["HIGH", "MEDIUM", "LOW"] "MEDIUM" = "MEDIUM" := by
  decide

/-- Claim C4 (counterexample): with no caller identity,
`getUserOnboardingStatus` does not raise `Unauthorized`; it returns the
safe value `{ isOnboarded: false }` (and performs no store work). -/
theorem onboarding_absent_identity_returns_safely :
    getUserOnboardingStatus none (.ok none) = (.ok { isOnboarded := false }, {})
    ∧ (getUserOnboardingStatus none (.ok none)).fst ≠ .error unauthorizedError := by
  exact ⟨rfl, by decide⟩

/-- Claim C4 (amended): with no caller identity, every interactive
operation stops before any store read, store write or generator call;
all of them raise `Unauthorized`, except `getUserOnboardingStatus`,
which instead returns `{ isOnboarded: false }`. -/
theorem absent_identity_blocks_all_work (now : Nat) (findUser : Option User)
    (call1 : String → Except JsError String) (p1 : String → Option RawInsights)
    (call2 : Nat → Except JsError String) (pQuiz : String → Option QuizDoc)
    (pTip : String → Option TipDoc) (clCall : Except JsError String)
    (pCL : String → Option CoverLetterDoc) (data : CoverLetterInput)
    (qs : List Question) (ans : List String) (score : Int)
    (findOnb : Except JsError (Option (Option String))) :
    getIndustryInsights now none findUser call1 p1 = (.error unauthorizedError, {})
    ∧ generateCoverLetter none findUser clCall pCL data = (.error unauthorizedError, {})
    ∧ generateQuiz none findUser call2 pQuiz = (.error unauthorizedError, {})
    ∧ saveQuizResult none findUser call2 pTip qs ans score = (.error unauthorizedError, {})
    ∧ getUserOnboardingStatus none findOnb = (.ok { isOnboarded := false }, {}) :=
  ⟨rfl, rfl, rfl, rfl, rfl⟩

/-- Claim C7: when the stored record exists and `now < nextUpdate`,
`getIndustryInsights` returns that record unchanged, invokes no
generator, and performs zero writes (one read, nothing else). -/
theorem cache_hit_returns_record_without_write (now : Nat) (uid : String) (user : User)
    (record : InsightRecord) (call : String → Except JsError String)
    (parseJson : String → Option RawInsights)
    (hrec : user.industryInsight = some record) (hfresh : now < record.nextUpdate) :
    getIndustryInsights now (some uid) (some user) call parseJson
      = (.ok record, { dbReads := 1 }) := by
  obtain ⟨i, ind, sk, oi⟩ := user
  simp only [User.industryInsight] at hrec
  subst hrec
  simp [getIndustryInsights, if_neg (not_le.mpr hfresh)]

/-- Witness for claim C7 at a concrete fresh record. -/
theorem cache_hit_returns_record_without_write_witness :
    getIndustryInsights 0 (some "user-1") (some sampleUserWithInsight)
        (fun _ => .ok "raw") (fun _ => some {})
      = (.ok sampleRecord, { dbReads := 1 }) :=
  cache_hit_returns_record_without_write 0 "user-1" sampleUserWithInsight sampleRecord
    (fun _ => .ok "raw") (fun _ => some {}) rfl (by decide)

/-- Claim C8: a 404 (unknown model) failure makes `safeGenerate` raise
the model-outdated error immediately: one underlying call, zero
retries, zero backoff. -/
theorem misconfigured_fails_immediately (call : Nat → Except JsError String) (e : JsError)
    (h : call 0 = .error e) (h404 : e.status = some 404) :
    safeGenerate call 0 3 = { result := .error modelOutdatedError, waitMs := 0, attempts := 1 } := by
  simp [safeGenerate, h, h404]

/-- Witness for claim C8 at a concrete 404-failing generator. -/
theorem misconfigured_fails_immediately_witness :
    safeGenerate call404 0 3
      = { result := .error modelOutdatedError, waitMs := 0, attempts := 1 } :=
  misconfigured_fails_immediately call404 ⟨some 404, "model not found"⟩ rfl rfl


/-- Skipping `k` consecutive rate-limited attempts: `safeGenerate`
spends one 30 s backoff per skipped attempt and continues at attempt
`a + k` with `retries - k` retries left. -/
lemma safeGenerate_skip_429 (call : Nat → Except JsError String) (errs : Nat → JsError)
    (k : Nat) :
    ∀ a retries, k ≤ retries →
      (∀ i, i < k → call (a + i) = .error (errs (a + i)) ∧ (errs (a + i)).status = some 429) →
      safeGenerate call a retries =
        { result := (safeGenerate call (a + k) (retries - k)).result
          waitMs := 30000 * k + (safeGenerate call (a + k) (retries - k)).waitMs
          attempts := k + (safeGenerate call (a + k) (retries - k)).attempts } := by
  induction k with
  | zero =>
    intro a retries _ _
    simp only [Nat.add_zero, Nat.sub_zero, Nat.mul_zero, Nat.zero_add]
  | succ k ih =>
    intro a retries hk hfail
    obtain ⟨hc, hs⟩ := hfail 0 (Nat.succ_pos k)
    rw [Nat.add_zero] at hc hs
    match retries, hk with
    | left + 1, hk =>
      have step : safeGenerate call a (left + 1) =
          { result := (safeGenerate call (a + 1) left).result
            waitMs := 30000 + (safeGenerate call (a + 1) left).waitMs
            attempts := 1 + (safeGenerate call (a + 1) left).attempts } := by
        rw [safeGenerate.eq_def]
        simp [hc, hs]
      rw [step, ih (a + 1) left (by omega)
        (fun i hi => by
          have := hfail (i + 1) (by omega)
          rwa [show a + (i + 1) = a + 1 + i by omega] at this)]
      have harith : a + 1 + k = a + (k + 1) := by omega
      have harith2 : left - k = left + 1 - (k + 1) := by omega
      rw [harith, harith2]
      rcases safeGenerate call (a + (k + 1)) (left + 1 - (k + 1)) with ⟨R, W, A⟩
      simp only [SafeOut.mk.injEq]
      exact ⟨trivial, by omega, by omega⟩

/-- Claim C5: with the observed retry budget of 3, a run whose first
`N < 3` underlying calls fail rate-limited (status 429) and whose next
call succeeds returns the successful text after `N` backoffs of 30 s
each; a run whose first four calls all fail rate-limited raises the
last rate-limit error (`GenerationFailed` surfaces to the caller). -/
theorem retry_policy_429 (call : Nat → Except JsError String) (errs : Nat → JsError) :
    (∀ N r, N < 3 →
      (∀ i, i < N → call i = .error (errs i) ∧ (errs i).status = some 429) →
      call N = .ok r →
      safeGenerate call 0 3 = { result := .ok r, waitMs := 30000 * N, attempts := N + 1 })
    ∧ ((∀ i, i < 4 → call i = .error (errs i) ∧ (errs i).status = some 429) →
      safeGenerate call 0 3 = { result := .error (errs 3), waitMs := 90000, attempts := 4 }) := by
  constructor
  · intro N r hN hfail hok
    rw [safeGenerate_skip_429 call errs N 0 3 (by omega)
      (fun i hi => by simpa using hfail i hi)]
    have hbase : safeGenerate call (0 + N) (3 - N) = { result := .ok r, waitMs := 0, attempts := 1 } := by
      simp only [Nat.zero_add]
      simp [safeGenerate, hok]
    rw [hbase]
    simp
  · intro hfail
    rw [safeGenerate_skip_429 call errs 3 0 3 (by omega)
      (fun i hi => by simpa using hfail i (by omega))]
    obtain ⟨hc, hs⟩ := hfail 3 (by omega)
    have hbase : safeGenerate call (0 + 3) (3 - 3) = { result := .error (errs 3), waitMs := 0, attempts := 1 } := by
      simp only [Nat.zero_add]
      have : ¬(errs 3).status = some 404 := by rw [hs]; decide
      simp [safeGenerate, hc, this]
    rw [hbase]
    simp

/-- Witness for claim C5: two rate-limited calls then success yields
the text after 60 s of backoff; four rate-limited calls yield the
rate-limit error after 90 s. -/
theorem retry_policy_429_witness :
    safeGenerate callTwo429 0 3 = { result := .ok "generated", waitMs := 60000, attempts := 3 }
    ∧ safeGenerate callAll429 0 3
      = { result := .error ⟨some 429, "quota"⟩, waitMs := 90000, attempts := 4 } :=
  ⟨(retry_policy_429 callTwo429 errsAll429).1 2 "generated" (by omega)
      (fun i hi => by interval_cases i <;> exact ⟨rfl, rfl⟩) rfl,
    (retry_policy_429 callAll429 errsAll429).2 (fun i _ => ⟨rfl, rfl⟩)⟩

/-- Total quiz-generation failure (generation error, or unparsable
text) produces the one-element fallback list. -/
lemma generateQuiz_failure_fallback (uid : String) (user : User)
    (call : Nat → Except JsError String) (parseJson : String → Option QuizDoc)
    (h : ∀ t, (safeGenerate call 0 3).result = .ok t → parseJson t = none) :
    (generateQuiz (some uid) (some user) call parseJson).fst = .ok (some [fallbackQuestion]) := by
  unfold generateQuiz
  cases hres : (safeGenerate call 0 3).result with
  | error e => simp [hres]
  | ok t => simp [hres, h t hres]

/-- Claim C9: when interactive quiz generation fails completely (the
generator raises, or its text is unparsable), `generateQuiz` returns
exactly the one hard-coded placeholder question — no empty result, no
raised error. -/
theorem quiz_total_failure_placeholder (uid : String) (user : User)
    (call : Nat → Except JsError String) (parseJson : String → Option QuizDoc)
    (h : ∀ t, (safeGenerate call 0 3).result = .ok t → parseJson t = none) :
    (generateQuiz (some uid) (some user) call parseJson).fst = .ok (some [fallbackQuestion]) :=
  generateQuiz_failure_fallback uid user call parseJson h

/-- Witness for claim C9 at a concrete always-failing generator. -/
theorem quiz_total_failure_placeholder_witness :
    (generateQuiz (some "user-1") (some sampleUserNoInsight) call500 (fun _ => none)).fst
      = .ok (some [fallbackQuestion]) :=
  quiz_total_failure_placeholder "user-1" sampleUserNoInsight call500 (fun _ => none)
    (fun _ _ => rfl)

/-- Claim C3: a parse failure never fabricates a parsed result — the
batch job skips the subject and leaves its record alone, `generateQuiz`
substitutes its declared fallback question, and `generateCoverLetter`
substitutes its declared fallback, the raw response text itself. -/
theorem parse_failure_policies (now : Nat) (r : InsightRecord) (t : String)
    (gen : String → Except JsError GenResponse) (pIns : String → Option RawInsights)
    (uid : String) (user : User) (call : Nat → Except JsError String)
    (pQuiz : String → Option QuizDoc) (rawText : String)
    (pCL : String → Option CoverLetterDoc) (data : CoverLetterInput)
    (hgen : gen r.industry = .ok ⟨some t⟩)
    (hparse : pIns (cleanBatchText t) = none)
    (hquiz : ∀ s, (safeGenerate call 0 3).result = .ok s → pQuiz s = none)
    (hclparse : pCL rawText = none) :
    generateIndustryInsightsBatch now gen pIns [r] = .ok [r]
    ∧ (generateQuiz (some uid) (some user) call pQuiz).fst = .ok (some [fallbackQuestion])
    ∧ (generateCoverLetter (some uid) (some user) (.ok rawText) pCL data).fst
      = .ok { content := some rawText, jobDescription := data.jobDescription
              companyName := data.companyName, jobTitle := data.jobTitle
              status := "completed", userId := user.id } := by
  refine ⟨?_, generateQuiz_failure_fallback uid user call pQuiz hquiz, ?_⟩
  · simp [generateIndustryInsightsBatch, insightsBatchLoop, hgen, hparse]
  · simp [generateCoverLetter, hclparse]

/-- Witness for claim C3: one batch subject with unparsable text is
left unchanged, the failing quiz returns the placeholder, and the
cover letter keeps the raw text. -/
theorem parse_failure_policies_witness :
    generateIndustryInsightsBatch 50 (fun _ => .ok ⟨some "nope"⟩) (fun _ => none) [recAlpha]
      = .ok [recAlpha]
    ∧ (generateQuiz (some "user-2") (some sampleUserNoInsight) call500 (fun _ => none)).fst
      = .ok (some [fallbackQuestion])
    ∧ (generateCoverLetter (some "user-2") (some sampleUserNoInsight) (.ok "letter text")
        (fun _ => none)
        { jobTitle := "dev", companyName := "acme", jobDescription := "desc" }).fst
      = .ok { content := some "letter text", jobDescription := "desc", companyName := "acme"
              jobTitle := "dev", status := "completed", userId := "u1" } :=
  parse_failure_policies 50 recAlpha "nope" (fun _ => .ok ⟨some "nope"⟩) (fun _ => none)
    "user-2" sampleUserNoInsight call500 (fun _ => none) "letter text" (fun _ => none)
    { jobTitle := "dev", companyName := "acme", jobDescription := "desc" }
    rfl rfl (fun _ _ => rfl) rfl

/-- Claim C6: over three subjects whose generations succeed but whose
second text is unparsable, the batch updates the records of subjects 1
and 3, leaves subject 2 unchanged, and raises no batch-level error. -/
theorem batch_second_subject_unparsable (now : Nat) (r1 r2 r3 : InsightRecord)
    (t1 t2 t3 : String) (gen : String → Except JsError GenResponse)
    (pIns : String → Option RawInsights) (j1 j3 : RawInsights)
    (hd12 : r1.industry ≠ r2.industry) (hd13 : r1.industry ≠ r3.industry)
    (hd23 : r2.industry ≠ r3.industry)
    (hg1 : gen r1.industry = .ok ⟨some t1⟩) (hg2 : gen r2.industry = .ok ⟨some t2⟩)
    (hg3 : gen r3.industry = .ok ⟨some t3⟩)
    (hp1 : pIns (cleanBatchText t1) = some j1) (hp2 : pIns (cleanBatchText t2) = none)
    (hp3 : pIns (cleanBatchText t3) = some j3) :
    generateIndustryInsightsBatch now gen pIns [r1, r2, r3]
      = .ok [applyInsightsUpdate now j1 r1, r2, applyInsightsUpdate now j3 r3] := by
  simp [generateIndustryInsightsBatch, insightsBatchLoop, hg1, hg2, hg3, hp1, hp2, hp3,
    hd12, hd13, hd23, Ne.symm hd12, Ne.symm hd13, Ne.symm hd23]

/-- Witness for claim C6 at three concrete records and texts. -/
theorem batch_second_subject_unparsable_witness :
    generateIndustryInsightsBatch 100 genBatchWitness parseBatchWitness
        [recAlpha, recBeta, recGamma]
      = .ok [applyInsightsUpdate 100 rawAlpha recAlpha, recBeta,
             applyInsightsUpdate 100 rawGamma recGamma] :=
  batch_second_subject_unparsable 100 recAlpha recBeta recGamma "t1" "t2" "t3"
    genBatchWitness parseBatchWitness rawAlpha rawGamma
    (by decide) (by decide) (by decide) (by decide) (by decide) (by decide)
    (by decide) (by decide) (by decide)

/-- When every submitted answer matches its question's correct answer,
the built `questionResults` contain no wrong entries. -/
lemma questionResultsFrom_all_correct (answers : List String) :
    ∀ (start : Nat) (qs : List Question),
      (∀ i q, qs.get? i = some q → answers.get? (start + i) = some q.correctAnswer) →
      (questionResultsFrom answers start qs).filter (fun q => !q.isCorrect) = [] := by
  intro start qs
  induction qs generalizing start with
  | nil => intro _; rfl
  | cons q rest ih =>
    intro h
    have h0 : answers[start]? = some q.correctAnswer := by
      simpa using h 0 q rfl
    have htail : ∀ i q', rest.get? i = some q' →
        answers.get? (start + 1 + i) = some q'.correctAnswer := by
      intro i q' hq'
      have := h (i + 1) q' (by simpa using hq')
      rwa [show start + (i + 1) = start + 1 + i by omega] at this
    rw [questionResultsFrom]
    simp [List.filter, h0, ih (start + 1) htail]

/-- Claim C10: when every submitted answer equals its question's
`correctAnswer`, `saveQuizResult` makes no generator call at all and
persists an assessment whose `improvementTip` is null. -/
theorem all_correct_answers_skip_generator (uid : String) (user : User)
    (call : Nat → Except JsError String) (parseJson : String → Option TipDoc)
    (questions : List Question) (answers : List String) (score : Int)
    (hall : ∀ i q, questions.get? i = some q → answers.get? i = some q.correctAnswer) :
    saveQuizResult (some uid) (some user) call parseJson questions answers score
      = (.ok { userId := user.id, quizScore := score
               questions := questionResultsFrom answers 0 questions
               category := "Technical", improvementTip := none },
         { dbReads := 1, dbWrites := 1 }) := by
  have hfilter : (questionResultsFrom answers 0 questions).filter (fun q => !q.isCorrect) = [] :=
    questionResultsFrom_all_correct answers 0 questions
      (fun i q hq => by simpa using hall i q hq)
  unfold saveQuizResult
  simp [hfilter]

/-- The one-question witness quiz is answered fully correctly. -/
lemma sampleQuiz_all_correct :
    ∀ (i : Nat) (q : Question), [sampleQuestion].get? i = some q →
      (["A"] : List String).get? i = some q.correctAnswer := by
  intro i q hq
  cases i with
  | zero =>
    simp at hq
    subst hq
    rfl
  | succ n => simp at hq

/-- Witness for claim C10 at a one-question quiz answered correctly. -/
theorem all_correct_answers_skip_generator_witness :
    saveQuizResult (some "user-1") (some sampleUserNoInsight) call500 (fun _ => none)
        [sampleQuestion] ["A"] 100
      = (.ok { userId := "u1", quizScore := 100
               questions := questionResultsFrom ["A"] 0 [sampleQuestion]
               category := "Technical", improvementTip := none },
         { dbReads := 1, dbWrites := 1 }) :=
  all_correct_answers_skip_generator "user-1" sampleUserNoInsight call500 (fun _ => none)
    [sampleQuestion] ["A"] 100 sampleQuiz_all_correct
